import Mathlib

/-!
Shallow embedding of `src/function_app.py`, a serverless chat-bot glue layer:
a Telegram webhook handler (`TelegramWebhook`) plus three timer jobs
(`WeeklyPlanner`, `DailyReminder`, `KeepAlive`).

External collaborators (Telegram HTTP API, Gemini embedding/generation,
Supabase RPC, MongoDB collections) are modelled as oracles collected in `Env`:
each oracle returns `Except String α`, where `.error e` models the Python call
raising an exception with message `e` and `.ok v` models a normal return.
Every handler additionally produces a trace (`List Effect`) recording, in
order, each outbound call attempt and each database read/write attempt, so
that statements about "no send", "exactly one send", "query parameters" etc.
can be made about the trace.
-/

/-- Trace events: one per external call attempt made by the program. -/
inductive Effect where
  /-- `db.user_messages.insert_one(...)` attempt in `save_user_message`. -/
  | saveMsg (chat_id text : String)
  /-- `gemini_client.models.embed_content(...)` call in `create_embedding`. -/
  | embedCall (text : String)
  /-- `supabase.rpc("match_documents", ...)` call in `search_rag_documents`,
      recording the `match_threshold` and `match_count` arguments. -/
  | rpcMatch (threshold : Rat) (count : Nat)
  /-- invocation of `generate_ai_response(user_message, context)`, recording
      its two arguments. -/
  | genAI (user_message context : String)
  /-- `gemini_client.models.generate_content(...)` call with the given prompt. -/
  | genContent (prompt : String)
  /-- `requests.post` to the Telegram `sendMessage` endpoint with the given
      payload `chat_id` (possibly `None`) and `text`. -/
  | httpPost (chat_id : Option String) (text : String)
  /-- `db.approved_plans.find({chat_id}).sort("created_at",-1).limit(5)` in the
      `/plan` branch. -/
  | findApproved (chat_id : String)
  /-- `db.pending_plans.find({chat_id, status: pending}).limit(5)` in `WeeklyPlanner`. -/
  | findPending (chat_id : String)
  /-- `db.approved_plans.find({chat_id, status: ne completed}).limit(3)` in `DailyReminder`. -/
  | findApprovedNC (chat_id : String)
  /-- `db.command("ping")` in `KeepAlive`. -/
  | probeMongo
  /-- `supabase.table("documents").select("id").limit(1).execute()` in `KeepAlive`. -/
  | probeSupabase
  /-- `logging.error` of a caught top-level exception. -/
  | logError (e : String)
  deriving DecidableEq, Repr

/-- A document returned by the `match_documents` RPC; the code reads
`doc["content"]`. -/
structure Doc where
  content : String
  deriving DecidableEq, Repr

/-- A MongoDB plan document (`approved_plans` / `pending_plans` collections).
`Option` fields model `.get` with a default on a possibly-missing key.
`created_at` is a datetime modelled as an integer timestamp; `none` models a
document without the key. -/
structure Plan where
  chat_id : String
  goal : Option String
  status : Option String
  created_at : Option Int
  deriving DecidableEq, Repr

/-- A MongoDB `user_profile` document. -/
structure UserProfile where
  chat_id : Option String
  reminder_times : Option (List String)
  deriving DecidableEq, Repr

/-- One element of a Gemini embedding response: `vals` models the `.values`
attribute when present (`hasattr(embedding, "values")`), `elems` models
`list(embedding)` used as the fallback. -/
structure EmbedVec where
  vals : Option (List Int)
  elems : List Int
  deriving DecidableEq, Repr

/-- A Gemini `embed_content` response; `Option` models attribute presence
(`hasattr`). -/
structure EmbedResponse where
  embeddings : Option (List EmbedVec)
  embedding : Option EmbedVec
  deriving DecidableEq, Repr

/-- The `message` object of a Telegram update: `chat_id` models
`message["chat"]["id"]` when both keys are present (an integer in the Telegram
API), `text` models `message["text"]` when present. -/
structure TgMessage where
  chat_id : Option Int
  text : Option String
  deriving DecidableEq, Repr

/-- A parsed Telegram update body. -/
structure TgUpdate where
  message : Option TgMessage
  deriving DecidableEq, Repr

/-- The inbound webhook request body: `invalid e` models `req.get_json()`
raising an exception with message `e`; `parsed u` a successfully parsed body. -/
inductive ReqBody where
  | invalid (e : String)
  | parsed (u : TgUpdate)
  deriving DecidableEq, Repr

/-- An `azure.functions.HttpResponse`. -/
structure HttpResponse where
  body : String
  status_code : Nat
  deriving DecidableEq, Repr

/-- The environment: configuration plus one oracle per external collaborator
call site. `.error e` models the call raising an exception. -/
structure Env where
  /-- `os.environ.get("TELEGRAM_CHAT_ID")`. -/
  TELEGRAM_CHAT_ID : Option String
  /-- `datetime.utcnow()` as a timestamp, used as the `created_at` default. -/
  now : Int
  /-- `datetime.utcnow().hour` in `DailyReminder`. -/
  utc_hour : Nat
  /-- `strftime("%d/%m/%Y")` rendering of a timestamp. -/
  formatDate : Int → String
  /-- outcome of `requests.post` to the Telegram endpoint: HTTP status code. -/
  post : Option String → String → Except String Nat
  /-- outcome of `db.user_messages.insert_one`. -/
  insert_message : String → String → Except String Unit
  /-- outcome of `gemini_client.models.embed_content`. -/
  embed_content : String → Except String EmbedResponse
  /-- outcome of the `match_documents` RPC; `ok none` models falsy
      `result.data`. -/
  match_documents : List Int → Rat → Nat → Except String (Option (List Doc))
  /-- outcome of `gemini_client.models.generate_content` for a given prompt. -/
  generate_content : String → Except String String
  /-- contents of the `approved_plans` collection (or a read failure). -/
  approved_plans : Except String (List Plan)
  /-- outcome of `db.user_profile.find({})`. -/
  user_profile : Except String (List UserProfile)
  /-- outcome of `db.pending_plans.find({chat_id, status: pending}).limit(5)`
      for a given chat identifier (modelled per call, since the query can fail
      independently per user). -/
  pending_find : String → Except String (List Plan)
  /-- outcome of `db.command("ping")`. -/
  mongo_ping : Except String String
  /-- outcome of the Supabase `documents` select in `KeepAlive`. -/
  supa_select : Except String (List String)

/-- Python `chat_id or TELEGRAM_CHAT_ID`: a falsy left operand (`None` or the
empty string) selects the right operand. -/
def py_or_str : Option String → Option String → Option String
  | none, d => d
  | some s, d => if s = "" then d else some s

/-- Python string slicing `s[:n]` (first `n` characters). -/
def py_slice (n : Nat) (s : String) : String :=
  String.mk (s.data.take n)

/-- Python `f"{h:02d}"` for a natural number. -/
def pad2 (n : Nat) : String :=
  if n < 10 then "0" ++ toString n else toString n

/-- `current_hour` computation in `DailyReminder`:
`datetime.utcnow().hour + 7`, then subtract 24 once if the result is `>= 24`. -/
def vn_hour (utcHour : Nat) : Nat :=
  let h := utcHour + 7
  if h ≥ 24 then h - 24 else h

/-- Response text of `/start`. -/
def start_text : String :=
  "👋 *Xin chào! Tôi là AI Planning Assistant!*\n\nTôi có thể giúp bạn:\n✅ Tạo kế hoạch tuần tự động\n✅ Nhắc nhở các mục tiêu hàng ngày\n✅ Tìm kiếm tài liệu và ghi chú\n✅ Theo dõi tiến độ công việc\n\n*Cách sử dụng:*\nGửi mục tiêu của bạn cho tôi, ví dụ:\n\"Tôi muốn học Python trong 2 tuần\"\n\nHoặc dùng các lệnh:\n/help - Xem hướng dẫn chi tiết\n/plan - Xem kế hoạch hiện tại"

/-- Response text of `/help`. -/
def help_text : String :=
  "📖 *Hướng Dẫn Sử Dụng*\n\n*1️⃣ Tạo Kế Hoạch:*\nGửi mục tiêu của bạn, ví dụ:\n- \"Tôi muốn học Python trong 2 tuần\"\n- \"Giúp tôi tập thể dục đều đặn\"\n\n*2️⃣ Tìm Kiếm Tài Liệu:*\nHỏi về bất kỳ chủ đề nào, tôi sẽ tìm trong tài liệu đã lưu.\n\n*3️⃣ Xem Kế Hoạch:*\nGõ /plan để xem kế hoạch hiện tại\n\n*4️⃣ Tự Động Hóa:*\n- Kế hoạch tuần mới: Chủ nhật 9h sáng\n- Nhắc nhở hàng ngày: 4 lần (6h, 12h, 18h, 21h)\n- Databases được làm mới tự động\n\nHãy bắt đầu bằng cách gửi mục tiêu của bạn! 🚀"

/-- Header line of the `/plan` listing. -/
def plan_header : String := "📋 *Kế Hoạch Của Bạn:*\n\n"

/-- Fixed empty-state text of `/plan` when no ApprovedPlan exists. -/
def plan_empty_text : String :=
  "📋 *Bạn chưa có kế hoạch nào*\n\nHãy gửi mục tiêu của bạn để tôi tạo kế hoạch!\n\nVí dụ:\n- \"Tôi muốn học lập trình\"\n- \"Giúp tôi giảm cân trong 1 tháng\"\n- \"Làm sao để cải thiện tiếng Anh?\""

/-- Fixed error text of `/plan` when the plans query raises. -/
def plan_error_text : String :=
  "Xin lỗi, có lỗi khi lấy kế hoạch. Vui lòng thử lại."

/-- Response text for an unrecognized command. -/
def unknown_command_text : String :=
  "❓ *Lệnh không hợp lệ*\n\nCác lệnh có sẵn:\n/start - Bắt đầu\n/help - Hướng dẫn\n/plan - Xem kế hoạch\n\nHoặc gửi tin nhắn bình thường để chat với tôi!"

/-- Fixed apology returned when `generate_content` raises. -/
def apology_text : String :=
  "Xin lỗi, tôi đang gặp sự cố kỹ thuật. Vui lòng thử lại sau."

/-- Fixed weekly message for a user with no pending plans. -/
def weekly_no_plan_msg : String :=
  "📅 *Kế Hoạch Tuần Mới*\n\nChào buổi sáng Chủ nhật! 🌅\n\nBạn chưa có kế hoạch nào cho tuần này. Hãy gửi mục tiêu của bạn để tôi giúp tạo kế hoạch nhé!\n\nVí dụ:\n- \"Tôi muốn học Python cơ bản\"\n- \"Giúp tôi tập thể dục đều đặn\"\n- \"Cải thiện kỹ năng giao tiếp\"\n\nHãy bắt đầu tuần mới với mục tiêu rõ ràng! 💪"

/-- Fixed daily 6h "start your day" message for a user with no non-completed
approved plans. -/
def daily_morning_msg : String :=
  "☀️ *Chào Buổi Sáng!*\n\nBạn chưa có kế hoạch nào. Hãy bắt đầu ngày mới bằng cách đặt mục tiêu cho mình nhé!\n\nGửi mục tiêu của bạn để tôi giúp tạo kế hoạch. 💪"

/-- The `time_messages` dict lookup with its `.get` fallback. -/
def time_greeting (h : Nat) : String :=
  if h = 6 then "☀️ *Chào Buổi Sáng!*"
  else if h = 12 then "🌤️ *Nghỉ Trưa Rồi!*"
  else if h = 18 then "🌆 *Buổi Chiều Vui Vẻ!*"
  else if h = 21 then "🌙 *Buổi Tối An Lành!*"
  else "⏰ *Nhắc Nhở*"

/-- Fixed success summary of `KeepAlive`. -/
def keepalive_ok_msg : String :=
  "🔄 *Hệ Thống Đang Hoạt Động*\n\n✅ MongoDB: Connected\n✅ Supabase: Connected\n✅ Gemini API: Active\n\nTất cả dịch vụ đang hoạt động bình thường! 💚"

/-- The Gemini probe prompt of `KeepAlive`. -/
def keepalive_probe_text : String := "Say \x27OK\x27 in one word"

/-- The `KeepAlive` error alert, embedding `str(e)[:200]`. -/
def keepalive_error_msg (e : String) : String :=
  "⚠️ *KeepAlive Error*\n\nCó lỗi xảy ra khi ping databases:\n" ++ py_slice 200 e ++
    "\n\nVui lòng kiểm tra hệ thống!"

/-- The `json.dumps({"error": str(e)})` body returned on a top-level webhook
exception. -/
def json_error (e : String) : String :=
  "\x7b\x22error\x22: \x22" ++ e ++ "\x22\x7d"

/-- `send_telegram_message(text, chat_id)`: posts to the Telegram endpoint with
target `chat_id or TELEGRAM_CHAT_ID`; returns `status_code == 200`, and
`False` if the post raises. The trace records the post attempt. -/
def send_telegram_message (env : Env) (text : String) (chat_id : Option String) :
    Bool × List Effect :=
  let target := py_or_str chat_id env.TELEGRAM_CHAT_ID
  ((match env.post target text with
    | .ok status => status == 200
    | .error _ => false),
   [Effect.httpPost target text])

/-- `embedding.values` when the attribute exists, else `list(embedding)`. -/
def extract_values (e : EmbedVec) : List Int :=
  match e.vals with
  | some v => v
  | none => e.elems

/-- Value computed by `create_embedding`: the first element of
`response.embeddings` when that attribute exists and is truthy, else
`response.embedding` when that attribute exists, else `None`; any exception
yields `None`. -/
def create_embedding_val (env : Env) (text : String) : Option (List Int) :=
  match env.embed_content text with
  | .error _ => none
  | .ok r =>
    match r.embeddings with
    | some (e :: _) => some (extract_values e)
    | _ =>
      match r.embedding with
      | some e => some (extract_values e)
      | none => none

/-- `search_rag_documents(query, threshold, count)`: embeds the query (the
embed call is always attempted), returns `[]` on a falsy embedding, otherwise
calls the `match_documents` RPC with the given threshold and count; `[]` on
RPC failure or falsy `result.data`. -/
def search_rag_documents (env : Env) (query : String) (threshold : Rat) (count : Nat) :
    List Doc × List Effect :=
  match create_embedding_val env query with
  | none => ([], [Effect.embedCall query])
  | some emb =>
    if emb = [] then ([], [Effect.embedCall query])
    else
      match env.match_documents emb threshold count with
      | .error _ => ([], [Effect.embedCall query, Effect.rpcMatch threshold count])
      | .ok d => (d.getD [], [Effect.embedCall query, Effect.rpcMatch threshold count])

/-- The Gemini prompt f-string of `generate_ai_response`. -/
def prompt_template (context user_message : String) : String :=
  "Bạn là AI Planning Assistant - trợ lý lập kế hoạch thông minh.\n\nNhiệm vụ: Giúp người dùng với mục tiêu và kế hoạch của họ.\n\nNgữ cảnh từ tài liệu đã lưu:\n" ++
    context ++ "\n\nTin nhắn người dùng: " ++ user_message ++
    "\n\nHãy trả lời ngắn gọn, hữu ích bằng tiếng Việt. Nếu người dùng đưa ra mục tiêu, hãy:\n1. Xác nhận mục tiêu\n2. Đề xuất các bước thực hiện\n3. Khuyến khích họ"

/-- `generate_ai_response(user_message, context)`: formats the prompt and calls
`generate_content`; returns the fixed apology if the call raises. The trace
records the helper invocation (with its arguments) and the Gemini call. -/
def generate_ai_response (env : Env) (user_message context : String) :
    String × List Effect :=
  let prompt := prompt_template context user_message
  ((match env.generate_content prompt with
    | .ok t => t
    | .error _ => apology_text),
   [Effect.genAI user_message context, Effect.genContent prompt])

/-- `save_user_message(chat_id, message)`: attempts the insert; an exception is
caught and only logged, so the outcome does not change control flow. -/
def save_user_message (env : Env) (chat_id message : String) : List Effect :=
  match env.insert_message chat_id message with
  | .ok _ => [Effect.saveMsg chat_id message]
  | .error _ => [Effect.saveMsg chat_id message]

/-- Python `text.startswith("/")`: the first character is `/`. -/
def starts_slash (s : String) : Bool :=
  match s.data with
  | [] => false
  | ch :: _ => ch = '/'

/-- Descending-`created_at` order used by the `/plan` query, lifted to
possibly-missing timestamps: a missing key sorts below every present value
(MongoDB treats a missing sort key as null, last in a descending sort). -/
def opt_le : Option Int → Option Int → Prop
  | none, _ => True
  | some _, none => False
  | some a, some b => a ≤ b

instance opt_le_dec : ∀ a b : Option Int, Decidable (opt_le a b)
  | none, _ => isTrue trivial
  | some _, none => isFalse id
  | some a, some b => inferInstanceAs (Decidable (a ≤ b))

theorem opt_le_total : ∀ a b : Option Int, opt_le a b ∨ opt_le b a
  | none, _ => Or.inl trivial
  | some _, none => Or.inr trivial
  | some a, some b => Int.le_total a b

theorem opt_le_trans : ∀ {a b c : Option Int}, opt_le a b → opt_le b c → opt_le a c
  | none, _, _, _, _ => trivial
  | some _, none, _, h, _ => absurd h id
  | some _, some _, none, _, h => absurd h id
  | some _, some _, some _, h1, h2 => Int.le_trans h1 h2

/-- Relation realizing `sort("created_at", -1)`: `a` comes before `b` when
`b.created_at ≤ a.created_at`. -/
def plan_desc (a b : Plan) : Prop := opt_le b.created_at a.created_at

instance : DecidableRel plan_desc := fun a b => opt_le_dec b.created_at a.created_at

instance : IsTotal Plan plan_desc := ⟨fun a b => opt_le_total b.created_at a.created_at⟩

instance : IsTrans Plan plan_desc :=
  ⟨fun _ _ _ h1 h2 => opt_le_trans h2 h1⟩

/-- Semantics of
`db.approved_plans.find({"chat_id": chat_id}).sort("created_at", -1).limit(5)`:
filter by chat identifier, stable-sort by descending creation time, keep the
first 5. -/
def approved_query (docs : List Plan) (chat_id : String) : List Plan :=
  ((docs.filter (fun p => decide (p.chat_id = chat_id))).insertionSort plan_desc).take 5

/-- Semantics of
`db.approved_plans.find({"chat_id": chat_id, "status": {"$ne": "completed"}}).limit(3)`
in `DailyReminder` (a missing `status` also matches `$ne`). -/
def approved_nc_query (docs : List Plan) (chat_id : String) : List Plan :=
  (docs.filter (fun p => decide (p.chat_id = chat_id ∧ p.status ≠ some "completed"))).take 3

/-- Status glyph of one `/plan` entry. -/
def status_glyph (status : String) : String :=
  if status = "completed" then "✅" else "🔄"

/-- Rendering of the `i`-th `/plan` entry (the two `+=` lines of the loop
body); a missing `created_at` defaults to `datetime.utcnow()`, which is a
datetime and hence gets formatted. -/
def render_entry (env : Env) (i : Nat) (p : Plan) : String :=
  let goal := p.goal.getD "N/A"
  let status := p.status.getD "pending"
  let date_str := env.formatDate (p.created_at.getD env.now)
  status_glyph status ++ " *" ++ toString i ++ ". " ++ goal ++ "*\n" ++
    "   📅 " ++ date_str ++ " | Status: " ++ status ++ "\n\n"

/-- The `for i, plan in enumerate(plans, 1)` loop of the `/plan` branch. -/
def render_entries (env : Env) (i : Nat) : List Plan → String
  | [] => ""
  | p :: ps => render_entry env i p ++ render_entries env (i + 1) ps

/-- The `f"{i}. {goal}\n"` enumeration loop shared by `WeeklyPlanner` and
`DailyReminder`. -/
def render_goals (i : Nat) : List Plan → String
  | [] => ""
  | p :: ps => toString i ++ ". " ++ p.goal.getD "N/A" ++ "\n" ++ render_goals (i + 1) ps

/-- The `/plan` branch of the webhook: runs the approved-plans query (its
failure is caught and becomes the fixed error text), rendering either the
numbered listing or the empty-state text. -/
def plan_branch (env : Env) (chat_id : String) : String × List Effect :=
  match env.approved_plans with
  | .error _ => (plan_error_text, [Effect.findApproved chat_id])
  | .ok docs =>
    let plans := approved_query docs chat_id
    if plans = [] then (plan_empty_text, [Effect.findApproved chat_id])
    else (plan_header ++ render_entries env 1 plans, [Effect.findApproved chat_id])

/-- The free-text branch of the webhook: RAG search with threshold `0.3` and
count `2`, context from the returned documents (empty when none), then the AI
response. -/
def free_text_branch (env : Env) (text : String) : String × List Effect :=
  let sr := search_rag_documents env text ((3 : Rat) / 10) 2
  let context :=
    if sr.1 = [] then ""
    else String.intercalate "\n\n" (sr.1.map (fun d => "- " ++ d.content))
  let ar := generate_ai_response env text context
  (ar.1, sr.2 ++ ar.2)

/-- The `TelegramWebhook` HTTP handler. An unparseable body (`get_json`
raising) reaches the top-level `except`, which returns a 200-status JSON error
body; since `chat_id` is not yet bound on that path, no error message is sent.
A body without a `message`, or with a falsy `text`, is acknowledged with 200
and nothing else. Otherwise the message is logged, dispatched on its text, and
exactly one send is attempted; the response is 200 regardless of the send
outcome. -/
def TelegramWebhook (env : Env) (req : ReqBody) : HttpResponse × List Effect :=
  match req with
  | .invalid e => ({ body := json_error e, status_code := 200 }, [])
  | .parsed u =>
    match u.message with
    | none => ({ body := "OK", status_code := 200 }, [])
    | some m =>
      let chat_id : String := match m.chat_id with | some i => toString i | none => ""
      let text : String := m.text.getD ""
      if text = "" then ({ body := "OK", status_code := 200 }, [])
      else
        let tr1 := save_user_message env chat_id text
        let rt : String × List Effect :=
          if starts_slash text then
            if text = "/start" then (start_text, [])
            else if text = "/help" then (help_text, [])
            else if text = "/plan" then plan_branch env chat_id
            else (unknown_command_text, [])
          else free_text_branch env text
        let sd := send_telegram_message env rt.1 (some chat_id)
        ({ body := "OK", status_code := 200 }, tr1 ++ rt.2 ++ sd.2)

/-- The weekly summary message for a user with pending plans. -/
def weekly_plan_summary (plans : List Plan) : String :=
  "📋 *Kế Hoạch Tuần Này:*\n\n" ++ render_goals 1 plans ++
    "\n💡 *Gợi ý:*\n• Chia nhỏ mục tiêu thành các bước nhỏ\n• Làm việc đều đặn mỗi ngày\n• Theo dõi tiến độ và điều chỉnh kịp thời\n\nChúc bạn một tuần thành công! 🚀"

/-- One `WeeklyPlanner` loop iteration: skip on falsy or sentinel chat
identifier; otherwise run the pending-plans query (an exception here escapes —
there is no per-user handler) and send the appropriate message. The second
component is the uncaught exception, if any. -/
def weekly_user (env : Env) (u : UserProfile) : List Effect × Option String :=
  match u.chat_id with
  | none => ([], none)
  | some cid =>
    if cid = "" ∨ cid = "temp" then ([], none)
    else
      match env.pending_find cid with
      | .error e => ([Effect.findPending cid], some e)
      | .ok pending =>
        if pending = [] then
          ([Effect.findPending cid] ++
            (send_telegram_message env weekly_no_plan_msg (some cid)).2, none)
        else
          ([Effect.findPending cid] ++
            (send_telegram_message env (weekly_plan_summary pending) (some cid)).2, none)

/-- The `WeeklyPlanner` user loop: stops at the first uncaught exception. -/
def weekly_loop (env : Env) : List UserProfile → List Effect × Option String
  | [] => ([], none)
  | u :: rest =>
    match weekly_user env u with
    | (tr, some e) => (tr, some e)
    | (tr, none) =>
      let r := weekly_loop env rest
      (tr ++ r.1, r.2)

/-- The `WeeklyPlanner` timer job. The single `try` wraps the whole body, so
any uncaught exception — from the top-level user query or from inside the
loop — ends the run and is logged once. -/
def WeeklyPlanner (env : Env) : List Effect :=
  match env.user_profile with
  | .error e => [Effect.logError e]
  | .ok users =>
    if users = [] then []
    else
      match weekly_loop env users with
      | (tr, some e) => tr ++ [Effect.logError e]
      | (tr, none) => tr

/-- Daily reminder message for a user with non-completed plans. -/
def daily_plan_msg (hour : Nat) (plans : List Plan) : String :=
  time_greeting hour ++ "\n\n📋 *Kế Hoạch Hôm Nay:*\n\n" ++ render_goals 1 plans ++
    "\n💪 Hãy tiếp tục cố gắng nhé!"

/-- One `DailyReminder` loop iteration: skip on falsy or sentinel chat
identifier; skip when the formatted current hour is not in the user's
reminder-times set; otherwise run the non-completed approved-plans query (an
exception here escapes) and send either the 6h "start your day" prompt (empty
result, hour 6 only) or the plan reminder (non-empty result). -/
def daily_user (env : Env) (hour : Nat) (u : UserProfile) : List Effect × Option String :=
  match u.chat_id with
  | none => ([], none)
  | some cid =>
    if cid = "" ∨ cid = "temp" then ([], none)
    else
      let rts := u.reminder_times.getD ["06:00", "12:00", "18:00", "21:00"]
      let ct := pad2 hour ++ ":00"
      if ct ∈ rts then
        match env.approved_plans with
        | .error e => ([Effect.findApprovedNC cid], some e)
        | .ok docs =>
          let plans := approved_nc_query docs cid
          if plans = [] then
            if hour = 6 then
              ([Effect.findApprovedNC cid] ++
                (send_telegram_message env daily_morning_msg (some cid)).2, none)
            else ([Effect.findApprovedNC cid], none)
          else
            ([Effect.findApprovedNC cid] ++
              (send_telegram_message env (daily_plan_msg hour plans) (some cid)).2, none)
      else ([], none)

/-- The `DailyReminder` user loop: stops at the first uncaught exception. -/
def daily_loop (env : Env) (hour : Nat) : List UserProfile → List Effect × Option String
  | [] => ([], none)
  | u :: rest =>
    match daily_user env hour u with
    | (tr, some e) => (tr, some e)
    | (tr, none) =>
      let r := daily_loop env hour rest
      (tr ++ r.1, r.2)

/-- The `DailyReminder` timer job. -/
def DailyReminder (env : Env) : List Effect :=
  match env.user_profile with
  | .error e => [Effect.logError e]
  | .ok users =>
    if users = [] then []
    else
      match daily_loop env (vn_hour env.utc_hour) users with
      | (tr, some e) => tr ++ [Effect.logError e]
      | (tr, none) => tr

/-- The `except` branch of `KeepAlive`: log the exception, then attempt the
truncated error alert (to the default chat); a failure of that send is itself
caught. -/
def keepalive_fail (env : Env) (e : String) : List Effect :=
  Effect.logError e :: (send_telegram_message env (keepalive_error_msg e) none).2

/-- The `KeepAlive` timer job: probes MongoDB, Supabase, then Gemini in
sequence; the first exception aborts the remaining probes and triggers the
error alert; on full success, sends the fixed summary. -/
def KeepAlive (env : Env) : List Effect :=
  match env.mongo_ping with
  | .error e => [Effect.probeMongo] ++ keepalive_fail env e
  | .ok _ =>
    match env.supa_select with
    | .error e => [Effect.probeMongo, Effect.probeSupabase] ++ keepalive_fail env e
    | .ok _ =>
      match env.generate_content keepalive_probe_text with
      | .error e =>
        [Effect.probeMongo, Effect.probeSupabase,
          Effect.genContent keepalive_probe_text] ++ keepalive_fail env e
      | .ok _ =>
        [Effect.probeMongo, Effect.probeSupabase, Effect.genContent keepalive_probe_text] ++
          (send_telegram_message env keepalive_ok_msg none).2

/-! ### Basic facts about the helpers -/

/-- The insert outcome in `save_user_message` never changes the trace. -/
theorem save_tr (env : Env) (c t : String) :
    save_user_message env c t = [Effect.saveMsg c t] := by
  unfold save_user_message
  cases env.insert_message c t <;> rfl

/-- The trace of a send attempt is exactly one post to the resolved target. -/
theorem send_tr (env : Env) (text : String) (c : Option String) :
    (send_telegram_message env text c).2 =
      [Effect.httpPost (py_or_str c env.TELEGRAM_CHAT_ID) text] := rfl

/-- A non-empty explicit chat identifier is never replaced by the default. -/
theorem py_or_str_some (c : String) (d : Option String) (h : c ≠ "") :
    py_or_str (some c) d = some c := by
  simp [py_or_str, h]

/-- Truncation used by the `KeepAlive` alert keeps at most `n` characters. -/
theorem py_slice_len_le (n : Nat) (s : String) : (py_slice n s).length ≤ n := by
  show (s.data.take n).length ≤ n
  rw [List.length_take]
  exact Nat.min_le_left _ _

/-- A baseline environment for concrete evaluations. -/
def env0 : Env where
  TELEGRAM_CHAT_ID := some "default"
  now := 0
  utc_hour := 23
  formatDate := fun _ => "01/01/2025"
  post := fun _ _ => Except.ok 200
  insert_message := fun _ _ => Except.ok ()
  embed_content := fun _ => Except.error "down"
  match_documents := fun _ _ _ => Except.ok (some [])
  generate_content := fun _ => Except.ok "pong"
  approved_plans := Except.ok []
  user_profile := Except.ok []
  pending_find := fun _ => Except.ok []
  mongo_ping := Except.ok "ok"
  supa_select := Except.ok []

/-- C2: every inbound webhook request is answered with HTTP status 200 — the
parse-failure path included — and on that internal-error path the body is the
JSON error object, so the upstream sender never sees a retry-triggering
status. -/
theorem webhook_always_200 (env : Env) (req : ReqBody) :
    (TelegramWebhook env req).1.status_code = 200 ∧
    ∀ e, req = ReqBody.invalid e → (TelegramWebhook env req).1.body = json_error e := by
  constructor
  · cases req with
    | invalid e => rfl
    | parsed u =>
      cases hm : u.message with
      | none => simp [TelegramWebhook, hm]
      | some m =>
        simp only [TelegramWebhook, hm]
        split <;> rfl
  · intro e he
    subst he
    rfl

theorem webhook_always_200_witness :
    (TelegramWebhook env0 (ReqBody.invalid "boom")).1.status_code = 200 ∧
    (TelegramWebhook env0 (ReqBody.invalid "boom")).1.body = json_error "boom" :=
  ⟨(webhook_always_200 env0 (ReqBody.invalid "boom")).1,
   (webhook_always_200 env0 (ReqBody.invalid "boom")).2 "boom" rfl⟩

/-- C10: a falsy chat identifier argument (`None` or the empty string) does not
drop the message — the post is still attempted, directed at the configured
default `TELEGRAM_CHAT_ID`. -/
theorem send_falsy_chat_uses_default (env : Env) (text : String) :
    (send_telegram_message env text none).2 =
      [Effect.httpPost env.TELEGRAM_CHAT_ID text] ∧
    (send_telegram_message env text (some "")).2 =
      [Effect.httpPost env.TELEGRAM_CHAT_ID text] := by
  constructor <;> simp [send_telegram_message, py_or_str]

/-- Environment in which the post, embedding and generation collaborators all
raise. -/
def envF : Env :=
  { env0 with
    post := fun _ _ => Except.error "net",
    embed_content := fun _ => Except.error "net",
    generate_content := fun _ => Except.error "net" }

/-- Environment in which embedding succeeds but the `match_documents` RPC
raises. -/
def envG : Env :=
  { env0 with
    embed_content := fun _ => Except.ok ⟨some [⟨some [1], [1]⟩], none⟩,
    match_documents := fun _ _ _ => Except.error "net" }

/-- C5: each collaborator-call failure is absorbed at the call site by a safe
fallback value — a raising post yields `false`, a raising embedding or RPC
yields the empty document list, a raising generation yields the fixed apology
string — so each helper returns normally. -/
theorem helper_fallbacks (env : Env) (text : String) (chat : Option String)
    (q msg ctx e₁ e₂ e₃ : String) (th : Rat) (c : Nat) (emb : List Int) :
    (env.post (py_or_str chat env.TELEGRAM_CHAT_ID) text = Except.error e₁ →
      (send_telegram_message env text chat).1 = false) ∧
    (env.embed_content q = Except.error e₂ →
      (search_rag_documents env q th c).1 = []) ∧
    (create_embedding_val env q = some emb → emb ≠ [] →
      env.match_documents emb th c = Except.error e₂ →
      (search_rag_documents env q th c).1 = []) ∧
    (env.generate_content (prompt_template ctx msg) = Except.error e₃ →
      (generate_ai_response env msg ctx).1 = apology_text) := by
  refine ⟨fun h => ?_, fun h => ?_, fun h1 h2 h3 => ?_, fun h => ?_⟩
  · simp [send_telegram_message, h]
  · simp [search_rag_documents, create_embedding_val, h]
  · simp [search_rag_documents, h1, h2, h3]
  · simp [generate_ai_response, h]

theorem helper_fallbacks_witness :
    ((send_telegram_message envF "x" none).1 = false) ∧
    ((search_rag_documents envF "q" ((3 : Rat) / 10) 2).1 = []) ∧
    ((search_rag_documents envG "q" ((3 : Rat) / 10) 2).1 = []) ∧
    ((generate_ai_response envF "m" "").1 = apology_text) :=
  ⟨(helper_fallbacks envF "x" none "q" "m" "" "net" "net" "net" ((3 : Rat) / 10) 2 []).1 rfl,
   (helper_fallbacks envF "x" none "q" "m" "" "net" "net" "net" ((3 : Rat) / 10) 2 []).2.1 rfl,
   (helper_fallbacks envG "x" none "q" "m" "" "net" "net" "net" ((3 : Rat) / 10) 2 [1]).2.2.1
     rfl (by decide) rfl,
   (helper_fallbacks envF "x" none "q" "m" "" "net" "net" "net" ((3 : Rat) / 10) 2 []).2.2.2 rfl⟩

/-- C8: when the MongoDB probe succeeds and the Supabase (vector-search) probe
raises, the Gemini probe is never invoked, the run attempts exactly one error
alert (whose embedded exception text is truncated to at most 200 characters),
and the alert's own send outcome cannot abort anything. -/
theorem keepalive_abort_on_probe_failure (env : Env) (r e : String)
    (hm : env.mongo_ping = Except.ok r) (hs : env.supa_select = Except.error e) :
    KeepAlive env =
      [Effect.probeMongo, Effect.probeSupabase, Effect.logError e,
        Effect.httpPost env.TELEGRAM_CHAT_ID (keepalive_error_msg e)] ∧
    (∀ p, Effect.genContent p ∉ KeepAlive env) ∧
    (py_slice 200 e).length ≤ 200 := by
  have htr : KeepAlive env =
      [Effect.probeMongo, Effect.probeSupabase, Effect.logError e,
        Effect.httpPost env.TELEGRAM_CHAT_ID (keepalive_error_msg e)] := by
    simp [KeepAlive, hm, hs, keepalive_fail, send_telegram_message, py_or_str]
  refine ⟨htr, fun p => ?_, py_slice_len_le 200 e⟩
  rw [htr]
  simp

/-- Environment whose Supabase probe raises. -/
def envK : Env := { env0 with supa_select := Except.error "supa down" }

theorem keepalive_abort_on_probe_failure_witness :
    envK.mongo_ping = Except.ok "ok" ∧ envK.supa_select = Except.error "supa down" ∧
    (KeepAlive envK =
      [Effect.probeMongo, Effect.probeSupabase, Effect.logError "supa down",
        Effect.httpPost (some "default") (keepalive_error_msg "supa down")] ∧
    (∀ p, Effect.genContent p ∉ KeepAlive envK) ∧
    (py_slice 200 "supa down").length ≤ 200) :=
  ⟨rfl, rfl, keepalive_abort_on_probe_failure envK "ok" "supa down" rfl rfl⟩

/-- Two well-formed users; the first user's pending-plans query raises. -/
def envC6 : Env :=
  { env0 with
    user_profile := Except.ok [⟨some "c1", none⟩, ⟨some "c2", none⟩],
    pending_find := fun c => if c = "c1" then Except.error "boom" else Except.ok [] }

/-- C6 counterexample: with two valid users and a pending-plans query that
raises for the first, the run ends at the first user — the second user is
never queried, let alone messaged, and the per-user failure is what gets
logged at batch level. This refutes "processing continues to the next
enumerated user". -/
theorem weekly_isolation_counterexample :
    WeeklyPlanner envC6 = [Effect.findPending "c1", Effect.logError "boom"] ∧
    Effect.findPending "c2" ∉ WeeklyPlanner envC6 ∧
    Effect.httpPost (some "c2") weekly_no_plan_msg ∉ WeeklyPlanner envC6 := by
  refine ⟨by decide, ?_, ?_⟩ <;> decide

/-- C1 counterexample: a payload whose `message` has a `text` but no `chat.id`
is not a no-op — the message is logged (with the empty chat identifier) and an
outbound send is attempted (falling back to the default chat), because the
code only ever checks `text`. -/
theorem webhook_missing_chat_counterexample :
    Effect.saveMsg "" "hi" ∈
      (TelegramWebhook env0 (ReqBody.parsed ⟨some ⟨none, some "hi"⟩⟩)).2 ∧
    Effect.httpPost (some "default") "pong" ∈
      (TelegramWebhook env0 (ReqBody.parsed ⟨some ⟨none, some "hi"⟩⟩)).2 := by
  constructor <;> decide

/-- C1 as amended: the silent-no-op guard covers a missing `message` object
and a missing (or empty) `text` only — for those payloads no send is
attempted, no message-log write is attempted, and the acknowledgment is
status 200. (Absence of `chat.id` alone does not suppress processing.) -/
theorem webhook_no_text_noop (env : Env) (u : TgUpdate)
    (h : ∀ m, u.message = some m → m.text.getD "" = "") :
    (TelegramWebhook env (ReqBody.parsed u)).1.status_code = 200 ∧
    (TelegramWebhook env (ReqBody.parsed u)).2 = [] := by
  cases hm : u.message with
  | none => exact ⟨by simp [TelegramWebhook, hm], by simp [TelegramWebhook, hm]⟩
  | some m =>
    have ht := h m hm
    constructor <;> simp [TelegramWebhook, hm, ht]

theorem webhook_no_text_noop_witness :
    (∀ m, (TgUpdate.mk (some ⟨some 1, none⟩)).message = some m → m.text.getD "" = "") ∧
    (TelegramWebhook env0 (ReqBody.parsed ⟨some ⟨some 1, none⟩⟩)).1.status_code = 200 ∧
    (TelegramWebhook env0 (ReqBody.parsed ⟨some ⟨some 1, none⟩⟩)).2 = [] :=
  ⟨fun m hm => by cases hm; rfl,
   webhook_no_text_noop env0 ⟨some ⟨some 1, none⟩⟩ (fun m hm => by cases hm; rfl)⟩

/-- Every effect of one weekly iteration belongs to a non-empty, non-sentinel
chat identifier. -/
theorem weekly_user_mem (env : Env) (u : UserProfile) (eff : Effect)
    (h : eff ∈ (weekly_user env u).1) :
    ∃ cid, cid ≠ "" ∧ cid ≠ "temp" ∧
      (eff = Effect.findPending cid ∨ ∃ t, eff = Effect.httpPost (some cid) t) := by
  unfold weekly_user at h
  cases hc : u.chat_id with
  | none => rw [hc] at h; simp at h
  | some cid =>
    rw [hc] at h
    dsimp only at h
    by_cases hskip : cid = "" ∨ cid = "temp"
    · rw [if_pos hskip] at h; simp at h
    · rw [if_neg hskip] at h
      push_neg at hskip
      refine ⟨cid, hskip.1, hskip.2, ?_⟩
      cases hq : env.pending_find cid with
      | error e => rw [hq] at h; simp at h; exact Or.inl h
      | ok pending =>
        rw [hq] at h
        dsimp only at h
        rw [send_tr, send_tr, py_or_str_some cid env.TELEGRAM_CHAT_ID hskip.1] at h
        by_cases hp : pending = []
        · rw [if_pos hp] at h
          rcases List.mem_append.mp h with h' | h' <;> simp at h'
          · exact Or.inl h'
          · exact Or.inr ⟨_, h'⟩
        · rw [if_neg hp] at h
          rcases List.mem_append.mp h with h' | h' <;> simp at h'
          · exact Or.inl h'
          · exact Or.inr ⟨_, h'⟩

/-- Every effect of one daily iteration belongs to a non-empty, non-sentinel
chat identifier. -/
theorem daily_user_mem (env : Env) (hour : Nat) (u : UserProfile) (eff : Effect)
    (h : eff ∈ (daily_user env hour u).1) :
    ∃ cid, cid ≠ "" ∧ cid ≠ "temp" ∧
      (eff = Effect.findApprovedNC cid ∨ ∃ t, eff = Effect.httpPost (some cid) t) := by
  unfold daily_user at h
  cases hc : u.chat_id with
  | none => rw [hc] at h; simp at h
  | some cid =>
    rw [hc] at h
    dsimp only at h
    by_cases hskip : cid = "" ∨ cid = "temp"
    · rw [if_pos hskip] at h; simp at h
    · rw [if_neg hskip] at h
      push_neg at hskip
      refine ⟨cid, hskip.1, hskip.2, ?_⟩
      by_cases hrt : (pad2 hour ++ ":00") ∈ u.reminder_times.getD ["06:00", "12:00", "18:00", "21:00"]
      · rw [if_pos hrt] at h
        cases hq : env.approved_plans with
        | error e => rw [hq] at h; simp at h; exact Or.inl h
        | ok docs =>
          rw [hq] at h
          dsimp only at h
          rw [send_tr, send_tr, py_or_str_some cid env.TELEGRAM_CHAT_ID hskip.1] at h
          by_cases hp : approved_nc_query docs cid = []
          · rw [if_pos hp] at h
            by_cases h6 : hour = 6
            · rw [if_pos h6] at h
              rcases List.mem_append.mp h with h' | h' <;> simp at h'
              · exact Or.inl h'
              · exact Or.inr ⟨_, h'⟩
            · rw [if_neg h6] at h; simp at h; exact Or.inl h
          · rw [if_neg hp] at h
            rcases List.mem_append.mp h with h' | h' <;> simp at h'
            · exact Or.inl h'
            · exact Or.inr ⟨_, h'⟩
      · rw [if_neg hrt] at h; simp at h

/-- Effects of the weekly loop come from some enumerated user's iteration. -/
theorem weekly_loop_mem (env : Env) (us : List UserProfile) (eff : Effect)
    (h : eff ∈ (weekly_loop env us).1) :
    ∃ u, u ∈ us ∧ eff ∈ (weekly_user env u).1 := by
  induction us with
  | nil => simp [weekly_loop] at h
  | cons u rest ih =>
    unfold weekly_loop at h
    cases hwu : weekly_user env u with
    | mk tr oe =>
      rw [hwu] at h
      cases oe with
      | some e =>
        exact ⟨u, List.mem_cons_self u rest, by rw [hwu]; exact h⟩
      | none =>
        rcases List.mem_append.mp h with h' | h'
        · exact ⟨u, List.mem_cons_self u rest, by rw [hwu]; exact h'⟩
        · obtain ⟨v, hv, hv2⟩ := ih h'
          exact ⟨v, List.mem_cons_of_mem u hv, hv2⟩

/-- Effects of the daily loop come from some enumerated user's iteration. -/
theorem daily_loop_mem (env : Env) (hour : Nat) (us : List UserProfile) (eff : Effect)
    (h : eff ∈ (daily_loop env hour us).1) :
    ∃ u, u ∈ us ∧ eff ∈ (daily_user env hour u).1 := by
  induction us with
  | nil => simp [daily_loop] at h
  | cons u rest ih =>
    unfold daily_loop at h
    cases hwu : daily_user env hour u with
    | mk tr oe =>
      rw [hwu] at h
      cases oe with
      | some e =>
        exact ⟨u, List.mem_cons_self u rest, by rw [hwu]; exact h⟩
      | none =>
        rcases List.mem_append.mp h with h' | h'
        · exact ⟨u, List.mem_cons_self u rest, by rw [hwu]; exact h'⟩
        · obtain ⟨v, hv, hv2⟩ := ih h'
          exact ⟨v, List.mem_cons_of_mem u hv, hv2⟩

/-- Every `WeeklyPlanner` effect is either a logged error or an effect that
names a non-empty, non-sentinel chat identifier. -/
theorem weekly_planner_mem (env : Env) (eff : Effect) (h : eff ∈ WeeklyPlanner env) :
    (∃ e, eff = Effect.logError e) ∨
    ∃ cid, cid ≠ "" ∧ cid ≠ "temp" ∧
      (eff = Effect.findPending cid ∨ ∃ t, eff = Effect.httpPost (some cid) t) := by
  unfold WeeklyPlanner at h
  cases hup : env.user_profile with
  | error e => rw [hup] at h; simp at h; exact Or.inl ⟨e, h⟩
  | ok users =>
    rw [hup] at h
    dsimp only at h
    by_cases hu : users = []
    · rw [if_pos hu] at h; simp at h
    · rw [if_neg hu] at h
      cases hl : weekly_loop env users with
      | mk tr oe =>
        rw [hl] at h
        cases oe with
        | some e =>
          rcases List.mem_append.mp h with h' | h'
          · obtain ⟨v, _, hv⟩ := weekly_loop_mem env users eff (by rw [hl]; exact h')
            exact Or.inr (weekly_user_mem env v eff hv)
          · simp at h'; exact Or.inl ⟨e, h'⟩
        | none =>
          obtain ⟨v, _, hv⟩ := weekly_loop_mem env users eff (by rw [hl]; exact h)
          exact Or.inr (weekly_user_mem env v eff hv)

/-- Every `DailyReminder` effect is either a logged error or an effect that
names a non-empty, non-sentinel chat identifier. -/
theorem daily_reminder_mem (env : Env) (eff : Effect) (h : eff ∈ DailyReminder env) :
    (∃ e, eff = Effect.logError e) ∨
    ∃ cid, cid ≠ "" ∧ cid ≠ "temp" ∧
      (eff = Effect.findApprovedNC cid ∨ ∃ t, eff = Effect.httpPost (some cid) t) := by
  unfold DailyReminder at h
  cases hup : env.user_profile with
  | error e => rw [hup] at h; simp at h; exact Or.inl ⟨e, h⟩
  | ok users =>
    rw [hup] at h
    dsimp only at h
    by_cases hu : users = []
    · rw [if_pos hu] at h; simp at h
    · rw [if_neg hu] at h
      cases hl : daily_loop env (vn_hour env.utc_hour) users with
      | mk tr oe =>
        rw [hl] at h
        cases oe with
        | some e =>
          rcases List.mem_append.mp h with h' | h'
          · obtain ⟨v, _, hv⟩ := daily_loop_mem env _ users eff (by rw [hl]; exact h')
            exact Or.inr (daily_user_mem env _ v eff hv)
          · simp at h'; exact Or.inl ⟨e, h'⟩
        | none =>
          obtain ⟨v, _, hv⟩ := daily_loop_mem env _ users eff (by rw [hl]; exact h)
          exact Or.inr (daily_user_mem env _ v eff hv)

/-- Unfolding equation of `weekly_loop` on a non-empty list. -/
theorem weekly_loop_cons (env : Env) (v : UserProfile) (us : List UserProfile) :
    weekly_loop env (v :: us) =
      match weekly_user env v with
      | (tr, some e) => (tr, some e)
      | (tr, none) => (tr ++ (weekly_loop env us).1, (weekly_loop env us).2) := rfl

/-- The weekly loop over a list whose prefix raises no exception splits into
the prefix's effects followed by the rest of the loop. -/
theorem weekly_loop_append (env : Env) (us1 us2 : List UserProfile)
    (h : ∀ v ∈ us1, (weekly_user env v).2 = none) :
    weekly_loop env (us1 ++ us2) =
      ((weekly_loop env us1).1 ++ (weekly_loop env us2).1, (weekly_loop env us2).2) := by
  induction us1 with
  | nil => simp [weekly_loop]
  | cons v rest ih =>
    have hv : (weekly_user env v).2 = none := h v (List.mem_cons_self v rest)
    have ih' := ih (fun w hw => h w (List.mem_cons_of_mem v hw))
    cases hwv : weekly_user env v with
    | mk tr oe =>
      rw [hwv] at hv
      dsimp only at hv
      subst hv
      show weekly_loop env (v :: (rest ++ us2)) = _
      rw [weekly_loop_cons, weekly_loop_cons, hwv, ih']
      simp [List.append_assoc]

/-- C6 as amended: in every weekly run, a failure while processing one user
(for example, that user's pending-plans query raising) aborts the batch — the
users already processed keep their effects, no user after the failing one is
processed, and the failure is caught and logged exactly once by the single
top-level handler, which also logs a failure of the top-level user query. -/
theorem weekly_user_failure_aborts_batch (env : Env)
    (us1 us2 : List UserProfile) (u : UserProfile) (cid e e' e2 : String) :
    (env.user_profile = Except.ok (us1 ++ u :: us2) →
      (∀ v ∈ us1, (weekly_user env v).2 = none) →
      u.chat_id = some cid → ¬(cid = "" ∨ cid = "temp") →
      env.pending_find cid = Except.error e →
      (WeeklyPlanner env =
        (weekly_loop env us1).1 ++ [Effect.findPending cid, Effect.logError e] ∧
       Effect.logError e2 ∉ (weekly_loop env us1).1)) ∧
    (env.user_profile = Except.error e' → WeeklyPlanner env = [Effect.logError e']) := by
  constructor
  · intro hup hok hc hskip hq
    constructor
    · have huser : weekly_user env u = ([Effect.findPending cid], some e) := by
        simp [weekly_user, hc, hskip, hq]
      have hli : weekly_loop env (u :: us2) = ([Effect.findPending cid], some e) := by
        unfold weekly_loop
        rw [huser]
      have hl := weekly_loop_append env us1 (u :: us2) hok
      rw [hli] at hl
      have hne : us1 ++ u :: us2 ≠ [] := by simp
      simp [WeeklyPlanner, hup, hne, hl]
    · intro hmem
      obtain ⟨v, _, hv2⟩ := weekly_loop_mem env us1 _ hmem
      rcases weekly_user_mem env v _ hv2 with ⟨cid', _, _, h3 | ⟨t, h3⟩⟩ <;> simp at h3
  · intro he'
    simp [WeeklyPlanner, he']

/-- Three well-formed users; the middle user's pending-plans query raises. -/
def envC6b : Env :=
  { env0 with
    user_profile := Except.ok [⟨some "c0", none⟩, ⟨some "c1", none⟩, ⟨some "c2", none⟩],
    pending_find := fun c => if c = "c1" then Except.error "boom" else Except.ok [] }

/-- Environment whose top-level user query raises. -/
def envErr : Env := { env0 with user_profile := Except.error "down" }

theorem weekly_user_failure_aborts_batch_witness :
    envC6b.user_profile =
      Except.ok ([⟨some "c0", none⟩] ++ ⟨some "c1", none⟩ :: [⟨some "c2", none⟩]) ∧
    (∀ v ∈ [(⟨some "c0", none⟩ : UserProfile)], (weekly_user envC6b v).2 = none) ∧
    envC6b.pending_find "c1" = Except.error "boom" ∧
    (WeeklyPlanner envC6b =
      (weekly_loop envC6b [⟨some "c0", none⟩]).1 ++
        [Effect.findPending "c1", Effect.logError "boom"] ∧
     Effect.logError "nope" ∉ (weekly_loop envC6b [⟨some "c0", none⟩]).1) ∧
    WeeklyPlanner envErr = [Effect.logError "down"] :=
  ⟨rfl, by decide, rfl,
   (weekly_user_failure_aborts_batch envC6b [⟨some "c0", none⟩] [⟨some "c2", none⟩]
      ⟨some "c1", none⟩ "c1" "boom" "x" "nope").1 rfl (by decide) rfl (by decide) rfl,
   (weekly_user_failure_aborts_batch envErr [] [] ⟨none, none⟩ "" "" "down" "nope").2 rfl⟩

/-- C9: in every weekly and daily run, no query effect and no send targets a
missing or sentinel chat identifier — a profile with chat identifier `""` or
`"temp"` is skipped before any per-user query or send. -/
theorem scheduled_jobs_skip_sentinel (env : Env) (t : String) :
    Effect.httpPost (some "temp") t ∉ WeeklyPlanner env ∧
    Effect.findPending "temp" ∉ WeeklyPlanner env ∧
    Effect.findPending "" ∉ WeeklyPlanner env ∧
    Effect.httpPost (some "temp") t ∉ DailyReminder env ∧
    Effect.findApprovedNC "temp" ∉ DailyReminder env ∧
    Effect.findApprovedNC "" ∉ DailyReminder env := by
  refine ⟨fun h => ?_, fun h => ?_, fun h => ?_, fun h => ?_, fun h => ?_, fun h => ?_⟩ <;>
    [rcases weekly_planner_mem env _ h with ⟨e, he⟩ | ⟨cid, h1, h2, h3 | ⟨t', h3⟩⟩;
     rcases weekly_planner_mem env _ h with ⟨e, he⟩ | ⟨cid, h1, h2, h3 | ⟨t', h3⟩⟩;
     rcases weekly_planner_mem env _ h with ⟨e, he⟩ | ⟨cid, h1, h2, h3 | ⟨t', h3⟩⟩;
     rcases daily_reminder_mem env _ h with ⟨e, he⟩ | ⟨cid, h1, h2, h3 | ⟨t', h3⟩⟩;
     rcases daily_reminder_mem env _ h with ⟨e, he⟩ | ⟨cid, h1, h2, h3 | ⟨t', h3⟩⟩;
     rcases daily_reminder_mem env _ h with ⟨e, he⟩ | ⟨cid, h1, h2, h3 | ⟨t', h3⟩⟩] <;>
    simp_all

theorem scheduled_jobs_skip_sentinel_witness :
    Effect.httpPost (some "temp") "x" ∉ WeeklyPlanner env0 ∧
    Effect.findPending "temp" ∉ WeeklyPlanner env0 ∧
    Effect.findPending "" ∉ WeeklyPlanner env0 ∧
    Effect.httpPost (some "temp") "x" ∉ DailyReminder env0 ∧
    Effect.findApprovedNC "temp" ∉ DailyReminder env0 ∧
    Effect.findApprovedNC "" ∉ DailyReminder env0 :=
  scheduled_jobs_skip_sentinel env0 "x"

/-- C7: for an eligible user (non-sentinel chat identifier whose reminder set
contains the computed local hour) with zero non-completed approved plans, the
daily iteration sends exactly the one fixed "start your day" message when the
computed hour is 6, and sends nothing when it is 12, 18 or 21. -/
theorem daily_no_plans_hour_rule (env : Env) (u : UserProfile) (cid : String)
    (docs : List Plan)
    (hc : u.chat_id = some cid) (hskip : ¬(cid = "" ∨ cid = "temp"))
    (hrt : (pad2 (vn_hour env.utc_hour) ++ ":00") ∈
      u.reminder_times.getD ["06:00", "12:00", "18:00", "21:00"])
    (hdb : env.approved_plans = Except.ok docs)
    (hempty : approved_nc_query docs cid = []) :
    (vn_hour env.utc_hour = 6 →
      daily_user env (vn_hour env.utc_hour) u =
        ([Effect.findApprovedNC cid, Effect.httpPost (some cid) daily_morning_msg], none)) ∧
    (vn_hour env.utc_hour = 12 ∨ vn_hour env.utc_hour = 18 ∨ vn_hour env.utc_hour = 21 →
      daily_user env (vn_hour env.utc_hour) u = ([Effect.findApprovedNC cid], none)) := by
  have hcne : cid ≠ "" := by push_neg at hskip; exact hskip.1
  constructor
  · intro h6
    rw [h6] at hrt ⊢
    simp [daily_user, hc, hskip, hrt, hdb, hempty, send_tr,
      py_or_str_some cid env.TELEGRAM_CHAT_ID hcne]
  · intro hh
    have h6 : vn_hour env.utc_hour ≠ 6 := by
      rcases hh with h | h | h <;> rw [h] <;> decide
    simp [daily_user, hc, hskip, hrt, hdb, hempty, h6]

/-- Environment whose computed Vietnam hour is 6 (UTC hour 23) with an empty
`approved_plans` collection and one valid user. -/
def envD : Env :=
  { env0 with
    utc_hour := 23,
    user_profile := Except.ok [⟨some "c1", none⟩] }

theorem daily_no_plans_hour_rule_witness :
    (⟨some "c1", none⟩ : UserProfile).chat_id = some "c1" ∧
    ¬("c1" = "" ∨ "c1" = "temp") ∧
    (pad2 (vn_hour envD.utc_hour) ++ ":00") ∈
      ((⟨some "c1", none⟩ : UserProfile).reminder_times.getD
        ["06:00", "12:00", "18:00", "21:00"]) ∧
    envD.approved_plans = Except.ok [] ∧
    approved_nc_query [] "c1" = [] ∧
    daily_user envD (vn_hour envD.utc_hour) ⟨some "c1", none⟩ =
      ([Effect.findApprovedNC "c1", Effect.httpPost (some "c1") daily_morning_msg], none) :=
  ⟨rfl, by decide, by decide, rfl, rfl,
   (daily_no_plans_hour_rule envD ⟨some "c1", none⟩ "c1" [] rfl (by decide)
      (by decide) rfl rfl).1 (by decide)⟩

/-- Any RPC effect recorded by `search_rag_documents` carries exactly the
threshold and count it was invoked with. -/
theorem rpc_mem_search (env : Env) (q : String) (th0 : Rat) (c0 : Nat) (th : Rat) (c : Nat)
    (h : Effect.rpcMatch th c ∈ (search_rag_documents env q th0 c0).2) :
    th = th0 ∧ c = c0 := by
  unfold search_rag_documents at h
  cases hce : create_embedding_val env q with
  | none => rw [hce] at h; simp at h
  | some emb =>
    rw [hce] at h
    dsimp only at h
    by_cases he : emb = []
    · rw [if_pos he] at h; simp at h
    · rw [if_neg he] at h
      cases hm : env.match_documents emb th0 c0 with
      | error e => rw [hm] at h; simp at h; exact h
      | ok d => rw [hm] at h; simp at h; exact h

/-- C4: a free-text message queries the retrieval collaborator only with
similarity threshold 0.3 and document count 2, and whenever that search
returns the empty list (on failure included) the generative-AI helper is
invoked with the empty string as its context argument. -/
theorem free_text_rag_contract (env : Env) (i : Int) (text : String) (th : Rat) (c : Nat)
    (h1 : ¬ text = "") (h2 : starts_slash text = false) :
    (Effect.rpcMatch th c ∈
        (TelegramWebhook env (ReqBody.parsed ⟨some ⟨some i, some text⟩⟩)).2 →
      th = (3 : Rat) / 10 ∧ c = 2) ∧
    ((search_rag_documents env text ((3 : Rat) / 10) 2).1 = [] →
      Effect.genAI text "" ∈
        (TelegramWebhook env (ReqBody.parsed ⟨some ⟨some i, some text⟩⟩)).2) := by
  constructor
  · intro hm
    simp [TelegramWebhook, h1, h2, save_tr, send_tr, free_text_branch,
      generate_ai_response] at hm
    exact rpc_mem_search env text ((3 : Rat) / 10) 2 th c hm
  · intro hs
    simp [TelegramWebhook, h1, h2, save_tr, send_tr, free_text_branch,
      generate_ai_response, hs]

/-- Environment in which the embedding succeeds and the RPC returns falsy
data, so the search result is empty without an exception. -/
def envH : Env :=
  { env0 with
    embed_content := fun _ => Except.ok ⟨some [⟨some [1], [1]⟩], none⟩,
    match_documents := fun _ _ _ => Except.ok none }

theorem free_text_rag_contract_witness :
    ¬ "hi" = "" ∧ starts_slash "hi" = false ∧
    (search_rag_documents envH "hi" ((3 : Rat) / 10) 2).1 = [] ∧
    Effect.genAI "hi" "" ∈
      (TelegramWebhook envH (ReqBody.parsed ⟨some ⟨some 1, some "hi"⟩⟩)).2 :=
  ⟨by decide, by decide, rfl,
   (free_text_rag_contract envH 1 "hi" ((3 : Rat) / 10) 2 (by decide) (by decide)).2 rfl⟩

/-- The `/plan` query returns `min(N, 5)` plans, where `N` is the number of
stored plans for the chat identifier. -/
theorem approved_query_length (db : List Plan) (cid : String) :
    (approved_query db cid).length =
      min (db.filter (fun p => decide (p.chat_id = cid))).length 5 := by
  unfold approved_query
  rw [List.length_take, (List.perm_insertionSort plan_desc _).length_eq, Nat.min_comm]

/-- The `/plan` query result is sorted by descending creation time. -/
theorem approved_query_sorted (db : List Plan) (cid : String) :
    List.Sorted plan_desc (approved_query db cid) :=
  List.Pairwise.sublist (List.take_sublist _ _) (List.sorted_insertionSort plan_desc _)

/-- Every plan in the `/plan` query result is a stored plan of the requested
chat identifier. -/
theorem approved_query_mem (db : List Plan) (cid : String) (p : Plan)
    (hp : p ∈ approved_query db cid) : p ∈ db ∧ p.chat_id = cid := by
  have h1 : p ∈ (db.filter (fun p => decide (p.chat_id = cid))).insertionSort plan_desc :=
    (List.take_sublist _ _).subset hp
  have h2 : p ∈ db.filter (fun p => decide (p.chat_id = cid)) :=
    (List.perm_insertionSort plan_desc _).mem_iff.mp h1
  have h3 := List.mem_filter.mp h2
  exact ⟨h3.1, of_decide_eq_true h3.2⟩

/-- The `/plan` query result is empty exactly when the chat identifier has no
stored plan. -/
theorem approved_query_nil (db : List Plan) (cid : String) :
    approved_query db cid = [] ↔
      db.filter (fun p => decide (p.chat_id = cid)) = [] := by
  constructor <;> intro h
  · have hl := approved_query_length db cid
    rw [h] at hl
    simp only [List.length_nil] at hl
    have hz : (db.filter (fun p => decide (p.chat_id = cid))).length = 0 := by omega
    exact List.length_eq_zero.mp hz
  · unfold approved_query
    rw [h]
    rfl

/-- C3: the `/plan` command renders the empty-state string when the chat
identifier has no stored ApprovedPlan, and otherwise renders exactly the
result of the query — `min(N, 5)` entries in descending creation-time order,
drawn from the chat's stored plans and each carrying the completed versus
in-progress glyph; and the webhook sends exactly that rendered text. -/
theorem plan_listing_correct (env : Env) (db : List Plan) (cid : String) (i : Int)
    (hdb : env.approved_plans = Except.ok db) :
    (db.filter (fun p => decide (p.chat_id = cid)) = [] →
      plan_branch env cid = (plan_empty_text, [Effect.findApproved cid])) ∧
    (db.filter (fun p => decide (p.chat_id = cid)) ≠ [] →
      plan_branch env cid =
        (plan_header ++ render_entries env 1 (approved_query db cid),
         [Effect.findApproved cid])) ∧
    (approved_query db cid).length =
      min (db.filter (fun p => decide (p.chat_id = cid))).length 5 ∧
    List.Sorted plan_desc (approved_query db cid) ∧
    (∀ p ∈ approved_query db cid, p ∈ db ∧ p.chat_id = cid) ∧
    (∀ p ∈ approved_query db cid,
      (p.status.getD "pending" = "completed" ∧
        status_glyph (p.status.getD "pending") = "✅") ∨
      (p.status.getD "pending" ≠ "completed" ∧
        status_glyph (p.status.getD "pending") = "🔄")) ∧
    (TelegramWebhook env (ReqBody.parsed ⟨some ⟨some i, some "/plan"⟩⟩)).2 =
      Effect.saveMsg (toString i) "/plan" ::
        ((plan_branch env (toString i)).2 ++
          [Effect.httpPost (py_or_str (some (toString i)) env.TELEGRAM_CHAT_ID)
            (plan_branch env (toString i)).1]) := by
  refine ⟨?_, ?_, approved_query_length db cid, approved_query_sorted db cid,
    fun p hp => approved_query_mem db cid p hp, fun p hp => ?_, ?_⟩
  · intro h
    have hq : approved_query db cid = [] := (approved_query_nil db cid).mpr h
    simp [plan_branch, hdb, hq]
  · intro h
    have hq : approved_query db cid ≠ [] := fun hq => h ((approved_query_nil db cid).mp hq)
    simp [plan_branch, hdb, hq]
  · by_cases hs : p.status.getD "pending" = "completed"
    · exact Or.inl ⟨hs, by simp [status_glyph, hs]⟩
    · exact Or.inr ⟨hs, by simp [status_glyph, hs]⟩
  · have hs1 : starts_slash "/plan" = true := by decide
    simp [TelegramWebhook, save_tr, send_tr, hs1]

/-- Concrete approved-plans collection: two plans for chat `"c"` (one
completed, one pending) and one plan for another chat. -/
def dbW : List Plan :=
  [⟨"c", some "g1", some "completed", some 10⟩,
   ⟨"c", some "g2", none, some 20⟩,
   ⟨"z", some "g3", none, some 30⟩]

/-- Environment holding `dbW`. -/
def envP : Env := { env0 with approved_plans := Except.ok dbW }

theorem plan_listing_correct_witness :
    envP.approved_plans = Except.ok dbW ∧
    ((dbW.filter (fun p => decide (p.chat_id = "c")) = [] →
      plan_branch envP "c" = (plan_empty_text, [Effect.findApproved "c"])) ∧
    (dbW.filter (fun p => decide (p.chat_id = "c")) ≠ [] →
      plan_branch envP "c" =
        (plan_header ++ render_entries envP 1 (approved_query dbW "c"),
         [Effect.findApproved "c"])) ∧
    (approved_query dbW "c").length =
      min (dbW.filter (fun p => decide (p.chat_id = "c"))).length 5 ∧
    List.Sorted plan_desc (approved_query dbW "c") ∧
    (∀ p ∈ approved_query dbW "c", p ∈ dbW ∧ p.chat_id = "c") ∧
    (∀ p ∈ approved_query dbW "c",
      (p.status.getD "pending" = "completed" ∧
        status_glyph (p.status.getD "pending") = "✅") ∨
      (p.status.getD "pending" ≠ "completed" ∧
        status_glyph (p.status.getD "pending") = "🔄")) ∧
    (TelegramWebhook envP (ReqBody.parsed ⟨some ⟨some 7, some "/plan"⟩⟩)).2 =
      Effect.saveMsg (toString (7 : Int)) "/plan" ::
        ((plan_branch envP (toString (7 : Int))).2 ++
          [Effect.httpPost (py_or_str (some (toString (7 : Int))) envP.TELEGRAM_CHAT_ID)
            (plan_branch envP (toString (7 : Int))).1])) :=
  ⟨rfl, plan_listing_correct envP dbW "c" 7 rfl⟩
